import Mathlib

set_option maxRecDepth 8000

/-!
Verification of the Mimir K8s charm reconciliation logic under a shallow
embedding of `src/charm.py` (class `MimirK8SOperatorCharm`).

Data model: YAML-like configuration trees, a container state carrying the
observed service plan, the configuration file, the rule-file tree, failure
injection flags for the container collaborator, the unit status, and a trace
of side-effecting operations. Charm methods are translated one-to-one:
`_build_mimir_config`, `_running_mimir_config`, `_mimir_config_changed`,
`_pebble_layer` / `_pebble_layer_changed`, `_set_alerts` /
`_push_alert_rules`, `_configure_mimir`, and the version parsing of
`_mimir_version`.
-/

namespace MimirCharm

/-- A YAML-equivalent value tree, in the shape produced by
`yaml.safe_load` / consumed by `yaml.safe_dump`: strings, integers,
booleans and mappings. Mappings keep the insertion order of the source;
all compared values in the reachable states are produced by the same
builder (or are the empty map), so order-sensitive structural equality
agrees with the order-insensitive Python dict equality on them. -/
inductive Yaml where
  | str (s : String)
  | int (n : Int)
  | bool (b : Bool)
  | map (kvs : List (String × Yaml))

mutual

/-- Structural equality on configuration trees; models the Python `==` / `!=`
comparison performed in `_mimir_config_changed`. -/
def Yaml.beq : Yaml → Yaml → Bool
  | .str a, .str b => a == b
  | .int a, .int b => a == b
  | .bool a, .bool b => a == b
  | .map a, .map b => Yaml.beqKvs a b
  | _, _ => false

def Yaml.beqKvs : List (String × Yaml) → List (String × Yaml) → Bool
  | [], [] => true
  | (k₁, v₁) :: t₁, (k₂, v₂) :: t₂ => k₁ == k₂ && Yaml.beq v₁ v₂ && Yaml.beqKvs t₁ t₂
  | _, _ => false

end

/-- Key lookup in a mapping node (used only to state properties of the
generated configuration; the charm itself accesses no keys). -/
def Yaml.get (y : Yaml) (k : String) : Option Yaml :=
  match y with
  | .map kvs => (kvs.find? (fun kv => kv.1 == k)).map (·.2)
  | _ => none

/-- Lookup along a key path. -/
def Yaml.getPath (y : Yaml) : List String → Option Yaml
  | [] => some y
  | k :: ks =>
    match y.get k with
    | some v => v.getPath ks
    | none => none

/-! Constants of `src/charm.py` (module level and class attributes). -/

def MIMIR_CONFIG : String := "/etc/mimir/mimir-config.yaml"

def MIMIR_DIR : String := "/mimir"

/-- `RULES_DIR = f"{MIMIR_DIR}/rules"`. -/
def RULES_DIR : String := MIMIR_DIR ++ "/rules"

/-- Class attribute `_http_listen_port = 9009`. -/
def httpListenPort : Nat := 9009

/-- Class attribute `_instance_addr = "127.0.0.1"`. -/
def instanceAddr : String := "127.0.0.1"

/-- The object-storage relation data returned by
`self.object_storage.bucket_info` when a complete binding is present
(keys `endpoint`, `access-key`, `secret-key`, `bucket`); `bucket_info`
returns the empty dict (falsy) when unbound, modelled as `Option.none`. -/
structure S3Info where
  endpoint : String
  accessKey : String
  secretKey : String
  bucket : String
deriving DecidableEq, Repr

/-- The endpoint rewrite `re.sub(r"^http://(.*)", r"\1", endpoint)` in
`_build_mimir_config`: the pattern is anchored at the start of the string,
so the substitution strips a leading `http://` and otherwise leaves the
string unchanged. (When a newline follows the match, `.*` stops there and
the unmatched remainder is kept, so the result is still the string with
its first seven characters removed.) -/
def stripHttpScheme (s : String) : String :=
  match s.data with
  | 'h' :: 't' :: 't' :: 'p' :: ':' :: '/' :: '/' :: rest => String.mk rest
  | _ => s

/-- Translation of `MimirK8SOperatorCharm._build_mimir_config`, with the
object-storage binding and the listen port as explicit inputs (the source
reads them from `self.object_storage.bucket_info` and
`self._http_listen_port`). -/
def buildMimirConfig (s3 : Option S3Info) (port : Nat) : Yaml :=
  let commonStorage : List (String × Yaml) :=
    match s3 with
    | some s =>
        [("backend", .str "s3"),
         ("s3", .map
           [("endpoint", .str (stripHttpScheme s.endpoint)),
            ("access_key_id", .str s.accessKey),
            ("secret_access_key", .str s.secretKey),
            ("bucket_name", .str s.bucket),
            ("insecure", .bool true)])]
    | none =>
        [("backend", .str "filesystem"),
         ("filesystem", .map [("dir", .str (MIMIR_DIR ++ "/data"))])]
  .map
    [("multitenancy_enabled", .bool false),
     ("common", .map [("storage", .map commonStorage)]),
     ("blocks_storage", .map
       [("storage_prefix", .str "tsdb"),
        ("bucket_store", .map [("sync_dir", .str (MIMIR_DIR ++ "/tsdb-sync"))]),
        ("tsdb", .map [("dir", .str (MIMIR_DIR ++ "/tsdb"))])]),
     ("compactor", .map
       [("data_dir", .str (MIMIR_DIR ++ "/compactor")),
        ("sharding_ring", .map [("kvstore", .map [("store", .str "memberlist")])])]),
     ("distributor", .map
       [("ring", .map
         [("instance_addr", .str instanceAddr),
          ("kvstore", .map [("store", .str "memberlist")])])]),
     ("ingester", .map
       [("ring", .map
         [("instance_addr", .str instanceAddr),
          ("kvstore", .map [("store", .str "memberlist")]),
          ("replication_factor", .int 1)])]),
     ("ruler_storage", .map
       [("backend", .str "local"),
        ("local", .map [("directory", .str RULES_DIR)])]),
     ("server", .map
       [("http_listen_port", .int port),
        ("log_level", .str "error")]),
     ("store_gateway", .map
       [("sharding_ring", .map [("replication_factor", .int 1)])])]

/-! The container collaborator and the charm state machine. -/

/-- One entry of a Pebble service description, as written by `_pebble_layer`. -/
structure Svc where
  override : String
  summary : String
  command : String
  startup : String
deriving DecidableEq, Repr

/-- A Pebble layer as built by `_pebble_layer`: services keyed by name. -/
structure PebLayer where
  summary : String
  description : String
  services : List (String × Svc)
deriving DecidableEq, Repr

/-- Content of the configuration file inside the container: either a value
that `yaml.safe_load` parses back (the file was written by `safe_dump`, whose
round trip is the identity on these trees), or a malformed document on which
`safe_load` raises `YAMLError`. -/
inductive FileContent where
  | yaml (v : Yaml)
  | malformed

/-- Side-effecting container operations, recorded in order of execution. -/
inductive Op where
  | removePath (path : String)
  | makeDir (path : String)
  | push (path : String)
  | addLayer (name : String)
  | restart (name : String)
  | updateEndpoint
deriving DecidableEq, Repr

/-- The unit status values used by the charm. -/
inductive Status where
  | active
  | waiting (msg : String)
  | blocked (msg : String)
deriving DecidableEq, Repr

/-- State of the workload container plus the unit status and the trace of
executed operations. The three failure-injection fields model the container
collaborator raising from the corresponding call sites: `removeErr` makes
`remove_path` raise `PebbleError`, `alertWriteErr` makes the first write of
`_push_alert_rules` raise `PathError`, and `pushCfgErr = some msg` makes the
configuration push raise an error whose text is `msg`. -/
structure Cont where
  conn : Bool
  plan : List (String × Svc)
  cfgFile : Option FileContent
  ruleFiles : List String
  removeErr : Bool
  alertWriteErr : Bool
  pushCfgErr : Option String
  status : Status
  trace : List Op

/-- `container.remove_path(path, recursive=True)`: deletes the rule tree
(recursive removal does not fail on a missing path). -/
def Cont.removePathRec (c : Cont) (p : String) : Cont :=
  { c with ruleFiles := [], trace := c.trace ++ [.removePath p] }

/-- `container.make_dir(path, make_parents=True)`. -/
def Cont.makeDir (c : Cont) (p : String) : Cont :=
  { c with trace := c.trace ++ [.makeDir p] }

/-- `container.push(path, content, make_dirs=True)`: the charm pushes either
the configuration document at `MIMIR_CONFIG` or a rule file under the tenant
directory. -/
def Cont.push (c : Cont) (p : String) (content : FileContent) : Cont :=
  if p = MIMIR_CONFIG then
    { c with cfgFile := some content, trace := c.trace ++ [.push p] }
  else
    { c with ruleFiles := c.ruleFiles ++ [p], trace := c.trace ++ [.push p] }

/-- `container.add_layer(name, layer, combine=True)`: the charm always adds
the same single-service layer with override `replace`, so the resulting plan
services equal the layer services. -/
def Cont.addLayer (c : Cont) (name : String) (l : PebLayer) : Cont :=
  { c with plan := l.services, trace := c.trace ++ [.addLayer name] }

/-- `container.restart(name)`. -/
def Cont.restartSvc (c : Cont) (name : String) : Cont :=
  { c with trace := c.trace ++ [.restart name] }

/-- `self.remote_write_provider.update_endpoint()`: an outward publication,
recorded as a trace operation. -/
def Cont.updateEndpoint (c : Cont) : Cont :=
  { c with trace := c.trace ++ [.updateEndpoint] }

/-- Translation of the `_pebble_layer` property. -/
def pebbleLayer : PebLayer :=
  { summary := "mimir layer"
    description := "pebble config layer for mimir"
    services :=
      [("mimir",
        { override := "replace"
          summary := "mimir daemon"
          command := "/bin/mimir --config.file=" ++ MIMIR_CONFIG
          startup := "enabled" })] }

/-- Translation of `_pebble_layer_changed`: `get_plan` yields `c.plan`;
`"services" not in current_layer.to_dict()` holds exactly when the observed
plan has no services; otherwise the services mappings are compared. -/
def pebbleLayerChanged (c : Cont) : Bool × Cont :=
  if c.plan = [] ∨ c.plan ≠ pebbleLayer.services then
    (true, c.addLayer "mimir" pebbleLayer)
  else
    (false, c)

/-- Translation of `_running_mimir_config`: an unreachable container or a
`ProtocolError` / `PathError` from `pull` (file absent) yields the empty
mapping; a document on which `yaml.safe_load` raises is NOT caught here and
propagates (modelled as `Except.error` with the exception text). -/
def runningMimirConfig (c : Cont) : Except String Yaml :=
  if c.conn = false then .ok (.map [])
  else
    match c.cfgFile with
    | none => .ok (.map [])
    | some .malformed => .error "yaml parse error"
    | some (.yaml v) => .ok v

/-- Translation of `_mimir_config_changed`: builds the desired configuration,
compares it with the running one and pushes on difference. Any exception
inside the `try` block — including a `yaml.safe_load` failure escaping
`_running_mimir_config` and any error from `push` — is converted to
`BlockedStatusError(str(e))`, modelled as `Except.error` with the text. -/
def mimirConfigChanged (s3 : Option S3Info) (c : Cont) : Cont × Except String Bool :=
  let config := buildMimirConfig s3 httpListenPort
  match runningMimirConfig c with
  | .error e => (c, .error e)
  | .ok running =>
    if Yaml.beq running config then (c, .ok false)
    else
      match c.pushCfgErr with
      | some msg => (c, .error msg)
      | none => (c.push MIMIR_CONFIG (.yaml config), .ok true)

/-- The tenant directory `f"{RULES_DIR}/anonymous"` of `_push_alert_rules`. -/
def tenantDir : String := RULES_DIR ++ "/anonymous"

/-- The rule-file path `os.path.join(tenant_dir, f"juju_{id}.rules")`
(`id` never begins with a slash, so the join is plain concatenation). -/
def rulePath (id : String) : String := tenantDir ++ "/juju_" ++ id ++ ".rules"

/-- Translation of `_push_alert_rules(alerts)`: create the tenant directory,
then push one serialized rule file per topology identifier, in order. -/
def pushAlertRules (alerts : List (String × Yaml)) (c : Cont) : Cont :=
  alerts.foldl (fun c a => c.push (rulePath a.1) (.yaml a.2)) (c.makeDir tenantDir)

/-- Translation of `_set_alerts`: remove the rule tree (a `PebbleError`
becomes a fixed Blocked message), then rewrite it (a `ProtocolError` /
`PathError` becomes the other fixed Blocked message). Returns the possibly
mutated container and the Blocked message when one was raised. -/
def setAlerts (alerts : List (String × Yaml)) (c : Cont) : Cont × Option String :=
  if c.removeErr then
    (c, some "Failed to remove alerts directory; see debug logs")
  else
    let c₁ := c.removePathRec RULES_DIR
    if c₁.alertWriteErr then
      (c₁, some "Failed to push updated alert files; see debug logs")
    else
      (pushAlertRules alerts c₁, none)

/-- The external inputs of one reconciliation pass: the object-storage
binding (`self.object_storage.bucket_info`) and the alert bundles
(`self.remote_write_provider.alerts`). -/
structure Inputs where
  s3 : Option S3Info
  alerts : List (String × Yaml)

/-- Translation of `_configure_mimir`: reachability check, then inside one
`try` the alert synchronization followed by
`any([_pebble_layer_changed(), _mimir_config_changed()])` (the list literal
evaluates the layer step first, then the config step, both always); a
`BlockedStatusError` sets Blocked and stops; otherwise restart when either
changed, republish the endpoint, and set Active. -/
def configureMimir (inp : Inputs) (c : Cont) : Cont :=
  if c.conn = false then
    { c with status := .waiting "Waiting for Pebble ready" }
  else
    match setAlerts inp.alerts c with
    | (c₁, some msg) => { c₁ with status := .blocked msg }
    | (c₁, none) =>
      let lc := pebbleLayerChanged c₁
      match mimirConfigChanged inp.s3 lc.2 with
      | (c₃, .error msg) => { c₃ with status := .blocked msg }
      | (c₃, .ok cfgChanged) =>
        let restart := lc.1 || cfgChanged
        let c₄ := if restart then c₃.restartSvc "mimir" else c₃
        { c₄.updateEndpoint with status := .active }

/-! Workload-version parsing: `re.search(r"[Vv]ersion:?\s*(\S+)", out)`
in the `_mimir_version` property. -/

/-- The characters matched by the regex class `\s` (ASCII range; the version
command output is ASCII). -/
def isSpaceChar (c : Char) : Bool :=
  c == ' ' || c == '\t' || c == '\n' || c == '\x0d' || c == '\x0b' || c == '\x0c'

/-- Consume the literal `lit` at the head of `l`, returning the remainder. -/
def dropLit : List Char → List Char → Option (List Char)
  | [], l => some l
  | c :: cs, x :: xs => if x = c then dropLit cs xs else none
  | _ :: _, [] => none

/-- Match `\s*(\S+)` at the head of `l` and return the capture: skip maximal
whitespace, then take one or more non-whitespace characters. -/
def capture (l : List Char) : Option (List Char) :=
  let rest := l.dropWhile isSpaceChar
  let tok := rest.takeWhile (fun c => !isSpaceChar c)
  if tok.isEmpty then none else some tok

/-- Match `:?\s*(\S+)` at the head of `l`: the greedy optional colon is tried
first, and on failure the engine backtracks and retries without it. -/
def afterMarker (l : List Char) : Option (List Char) :=
  match l with
  | ':' :: rest => (capture rest).orElse (fun _ => capture l)
  | _ => capture l

/-- `re.search` for `[Vv]ersion:?\s*(\S+)`: scan start positions left to
right; at each, require `V` or `v`, the literal `ersion`, then the tail
pattern; on failure continue at the next position. -/
def searchFrom : List Char → Option (List Char)
  | [] => none
  | c :: rest =>
    (if c == 'V' || c == 'v' then
       match dropLit "ersion".data rest with
       | some after => afterMarker after
       | none => none
     else none).orElse (fun _ => searchFrom rest)

/-- The regex parse of `_mimir_version` applied to the version-command
output: `result.group(1)` of the first match, when any. -/
def mimirVersionSearch (s : String) : Option String :=
  (searchFrom s.data).map (fun l => String.mk l)

/-- Translation of the `_mimir_version` property: `None` when the container
is unreachable, otherwise the regex parse of the command output. -/
def mimirVersion (conn : Bool) (out : String) : Option String :=
  if conn then mimirVersionSearch out else none

/-- Whether `[Vv]ersion` occurs anywhere in `l` (the marker of the regex,
ignoring the tail pattern). -/
def hasMarker : List Char → Bool
  | [] => false
  | c :: rest => ((c == 'V' || c == 'v') && (dropLit "ersion".data rest).isSome) || hasMarker rest

/-- Modelled from the spec: the parse the claim describes, with the marker
word `version` matched case-insensitively in all seven letters (the code
matches only `[Vv]ersion`). Used to compare the claimed behaviour with the
implemented one. -/
def specCaseInsensitiveSearch : List Char → Option (List Char)
  | [] => none
  | c :: rest =>
    (if c.toLower = 'v' then
       match dropLit "ersion".data (rest.map Char.toLower) with
       | some _ => afterMarker (rest.drop 6)
       | none => none
     else none).orElse (fun _ => specCaseInsensitiveSearch rest)

/-- Modelled from the spec: case-insensitive version parse on a string. -/
def specVersionSearch (s : String) : Option String :=
  (specCaseInsensitiveSearch s.data).map (fun l => String.mk l)

/-! Canonical serialization: model of `yaml.safe_dump`, which emits mapping
keys in sorted order (`sort_keys=True` default), so that byte-identity of
the output follows from value identity. -/

/-- Insert a key-value pair into a key-sorted list of pairs. -/
def insertPair (p : String × Yaml) : List (String × Yaml) → List (String × Yaml)
  | [] => [p]
  | q :: t => if (compare p.1 q.1).isLE then p :: q :: t else q :: insertPair p t

/-- Sort a list of pairs by key (insertion sort). -/
def sortPairs : List (String × Yaml) → List (String × Yaml)
  | [] => []
  | p :: t => insertPair p (sortPairs t)

mutual

/-- Recursively sort every mapping of a tree by key: the canonical form
`safe_dump` serializes. -/
def sortYaml : Yaml → Yaml
  | .str s => .str s
  | .int n => .int n
  | .bool b => .bool b
  | .map kvs => .map (sortPairs (sortVals kvs))

def sortVals : List (String × Yaml) → List (String × Yaml)
  | [] => []
  | (k, v) :: t => (k, sortYaml v) :: sortVals t

end

mutual

/-- Render a (already canonically sorted) tree to its serialized text
(mapping nodes delimited with parentheses). -/
def renderYaml : Yaml → String
  | .str s => "\"" ++ s ++ "\""
  | .int n => toString n
  | .bool b => toString b
  | .map kvs => "(" ++ renderPairs kvs ++ ")"

def renderPairs : List (String × Yaml) → String
  | [] => ""
  | (k, v) :: t => k ++ ": " ++ renderYaml v ++ "; " ++ renderPairs t

end

/-- `yaml.safe_dump` as used on the configuration document
(`config_as_yaml = yaml.safe_dump(config)`): canonical key order, then a
deterministic rendering. -/
def serializeConfig (y : Yaml) : String := renderYaml (sortYaml y)

/-! Classifiers for the trace operations, and concrete example states. -/

/-- Filesystem operations of the alert-rule synchronizer: rule-tree removal,
tenant-directory creation, pushes to paths other than the config file. -/
def isAlertFsOp : Op → Bool
  | .removePath _ => true
  | .makeDir _ => true
  | .push p => p != MIMIR_CONFIG
  | _ => false

def isAddLayerOp : Op → Bool
  | .addLayer _ => true
  | _ => false

def isCfgPushOp : Op → Bool
  | .push p => p == MIMIR_CONFIG
  | _ => false

def isRestartOp : Op → Bool
  | .restart _ => true
  | _ => false

def isEndpointOp : Op → Bool
  | .updateEndpoint => true
  | _ => false

/-- Example alert bundle: one source with one rule document. -/
def exAlerts : List (String × Yaml) := [("relid1_model", .map [("groups", .str "g")])]

/-- Example pass inputs: no object storage, one alert source. -/
def exInputs : Inputs := { s3 := none, alerts := exAlerts }

/-- A fresh, healthy container: reachable, empty plan, no configuration file,
no injected collaborator failures. -/
def freshCont : Cont :=
  { conn := true
    plan := []
    cfgFile := none
    ruleFiles := []
    removeErr := false
    alertWriteErr := false
    pushCfgErr := none
    status := .active
    trace := [] }

/-! Helper lemmas about the step functions. -/

mutual

theorem Yaml.beq_refl : (v : Yaml) → Yaml.beq v v = true
  | .str s => by simp [Yaml.beq]
  | .int n => by simp [Yaml.beq]
  | .bool b => by simp [Yaml.beq]
  | .map kvs => by simp [Yaml.beq, Yaml.beqKvs_refl kvs]

theorem Yaml.beqKvs_refl : (l : List (String × Yaml)) → Yaml.beqKvs l l = true
  | [] => rfl
  | (k, v) :: t => by simp [Yaml.beqKvs, Yaml.beq_refl v, Yaml.beqKvs_refl t]

end

mutual

theorem Yaml.eq_of_beq : (a b : Yaml) → Yaml.beq a b = true → a = b
  | .str a, .str b, h => by simpa [Yaml.beq] using h
  | .int a, .int b, h => by simpa [Yaml.beq] using h
  | .bool a, .bool b, h => by simpa [Yaml.beq] using h
  | .map a, .map b, h => by
      have := Yaml.eqKvs_of_beqKvs a b (by simpa [Yaml.beq] using h)
      simp [this]
  | .str _, .int _, h => by simp [Yaml.beq] at h
  | .str _, .bool _, h => by simp [Yaml.beq] at h
  | .str _, .map _, h => by simp [Yaml.beq] at h
  | .int _, .str _, h => by simp [Yaml.beq] at h
  | .int _, .bool _, h => by simp [Yaml.beq] at h
  | .int _, .map _, h => by simp [Yaml.beq] at h
  | .bool _, .str _, h => by simp [Yaml.beq] at h
  | .bool _, .int _, h => by simp [Yaml.beq] at h
  | .bool _, .map _, h => by simp [Yaml.beq] at h
  | .map _, .str _, h => by simp [Yaml.beq] at h
  | .map _, .int _, h => by simp [Yaml.beq] at h
  | .map _, .bool _, h => by simp [Yaml.beq] at h

theorem Yaml.eqKvs_of_beqKvs : (a b : List (String × Yaml)) → Yaml.beqKvs a b = true → a = b
  | [], [], _ => rfl
  | (k₁, v₁) :: t₁, (k₂, v₂) :: t₂, h => by
      rw [Yaml.beqKvs] at h
      have h4 := (Bool.and_eq_true _ _).mp h
      have h5 := (Bool.and_eq_true _ _).mp h4.1
      have hk : k₁ = k₂ := by simpa using h5.1
      have hv : v₁ = v₂ := Yaml.eq_of_beq v₁ v₂ h5.2
      have ht : t₁ = t₂ := Yaml.eqKvs_of_beqKvs t₁ t₂ h4.2
      simp [hk, hv, ht]
  | [], _ :: _, h => by simp [Yaml.beqKvs] at h
  | _ :: _, [], h => by simp [Yaml.beqKvs] at h

end


/-- A rule-file path is never the configuration-file path. -/
theorem rulePath_ne_config (id : String) : rulePath id ≠ MIMIR_CONFIG := by
  intro h
  have h2 := congrArg String.data h
  simp only [rulePath, tenantDir, RULES_DIR, MIMIR_DIR, MIMIR_CONFIG,
    String.data_append] at h2
  simp at h2

/-- The operations `_set_alerts` performs when it succeeds: remove the rule
tree, recreate the tenant directory, push one file per alert source. -/
def alertOps (alerts : List (String × Yaml)) : List Op :=
  .removePath RULES_DIR :: .makeDir tenantDir :: alerts.map (fun a => .push (rulePath a.1))

theorem push_rule_eq (c : Cont) (id : String) (v : FileContent) :
    c.push (rulePath id) v =
      { c with ruleFiles := c.ruleFiles ++ [rulePath id],
               trace := c.trace ++ [Op.push (rulePath id)] } := by
  simp [Cont.push, rulePath_ne_config id]

theorem foldl_push_eq (alerts : List (String × Yaml)) (c : Cont) :
    alerts.foldl (fun c a => c.push (rulePath a.1) (.yaml a.2)) c =
      { c with ruleFiles := c.ruleFiles ++ alerts.map (fun a => rulePath a.1),
               trace := c.trace ++ alerts.map (fun a => Op.push (rulePath a.1)) } := by
  induction alerts generalizing c with
  | nil => simp
  | cons a t ih =>
      rw [List.foldl_cons, push_rule_eq, ih]
      simp [List.append_assoc]

theorem pushAlertRules_eq (alerts : List (String × Yaml)) (c : Cont) :
    pushAlertRules alerts c =
      { c with ruleFiles := c.ruleFiles ++ alerts.map (fun a => rulePath a.1),
               trace := c.trace ++ .makeDir tenantDir ::
                 alerts.map (fun a => Op.push (rulePath a.1)) } := by
  simp only [pushAlertRules, foldl_push_eq, Cont.makeDir]
  simp [List.append_assoc]

theorem setAlerts_clean (alerts : List (String × Yaml)) (c : Cont)
    (h1 : c.removeErr = false) (h2 : c.alertWriteErr = false) :
    setAlerts alerts c =
      ({ c with ruleFiles := alerts.map (fun a => rulePath a.1),
                trace := c.trace ++ alertOps alerts }, none) := by
  simp only [setAlerts, h1, Bool.false_eq_true, if_false, Cont.removePathRec]
  simp only [h2, Bool.false_eq_true, if_false, pushAlertRules_eq, alertOps]
  simp [List.append_assoc]

/-- Whether the configuration file (if any) parses back without error. -/
def parsesOk : Option FileContent → Bool
  | some .malformed => false
  | _ => true

/-- The empty observed mapping never equals a generated configuration. -/
theorem beq_empty_config (s3 : Option S3Info) (port : Nat) :
    Yaml.beq (.map []) (buildMimirConfig s3 port) = false := by
  cases s3 <;> rfl

theorem pebbleLayerChanged_pos (c : Cont)
    (h : c.plan = [] ∨ c.plan ≠ pebbleLayer.services) :
    pebbleLayerChanged c = (true, c.addLayer "mimir" pebbleLayer) := by
  simp [pebbleLayerChanged, h]

theorem pebbleLayerChanged_conv (c : Cont) (h : c.plan = pebbleLayer.services) :
    pebbleLayerChanged c = (false, c) := by
  have hne : ¬(c.plan = [] ∨ c.plan ≠ pebbleLayer.services) := by
    simp [h, pebbleLayer]
  simp [pebbleLayerChanged, hne]

theorem mimirConfigChanged_conv (s3 : Option S3Info) (c : Cont)
    (hconn : c.conn = true)
    (hcfg : c.cfgFile = some (.yaml (buildMimirConfig s3 httpListenPort))) :
    mimirConfigChanged s3 c = (c, .ok false) := by
  simp [mimirConfigChanged, runningMimirConfig, hconn, hcfg, Yaml.beq_refl]

/-- A pass from a converged container (plan and configuration already the
desired ones, collaborator healthy): only the alert rewrite and the endpoint
republication happen; no layer add, no config push, no restart. -/
theorem configureMimir_converged (inp : Inputs) (c : Cont)
    (hconn : c.conn = true) (h1 : c.removeErr = false) (h2 : c.alertWriteErr = false)
    (hplan : c.plan = pebbleLayer.services)
    (hcfg : c.cfgFile = some (.yaml (buildMimirConfig inp.s3 httpListenPort))) :
    configureMimir inp c =
      { c with ruleFiles := inp.alerts.map (fun a => rulePath a.1),
               status := .active,
               trace := c.trace ++ alertOps inp.alerts ++ [.updateEndpoint] } := by
  have hsa := setAlerts_clean inp.alerts c h1 h2
  simp only [configureMimir, hconn, Bool.true_eq_false, if_false, hsa]
  rw [pebbleLayerChanged_conv _ (by exact hplan)]
  rw [mimirConfigChanged_conv inp.s3 _ rfl (by exact hcfg)]
  simp [Cont.updateEndpoint, List.append_assoc]

/-- Any healthy pass (reachable container, no collaborator failure, readable
configuration file) ends Active and leaves the container converged: plan and
configuration file equal the desired ones, and the health flags persist. -/
theorem configureMimir_establishes (inp : Inputs) (c : Cont)
    (hconn : c.conn = true) (h1 : c.removeErr = false) (h2 : c.alertWriteErr = false)
    (h3 : c.pushCfgErr = none) (h4 : parsesOk c.cfgFile = true) :
    (configureMimir inp c).conn = true ∧
    (configureMimir inp c).removeErr = false ∧
    (configureMimir inp c).alertWriteErr = false ∧
    (configureMimir inp c).pushCfgErr = none ∧
    (configureMimir inp c).plan = pebbleLayer.services ∧
    (configureMimir inp c).cfgFile = some (.yaml (buildMimirConfig inp.s3 httpListenPort)) ∧
    (configureMimir inp c).status = .active := by
  have hsa := setAlerts_clean inp.alerts c h1 h2
  simp only [configureMimir, hconn, Bool.true_eq_false, if_false, hsa]
  by_cases hpl : c.plan = [] ∨ c.plan ≠ pebbleLayer.services
  · rw [pebbleLayerChanged_pos _ (by simpa using hpl)]
    match hcf : c.cfgFile, h4 with
    | none, _ =>
        simp [mimirConfigChanged, runningMimirConfig, hconn, hcf, Cont.addLayer,
          beq_empty_config, h1, h2, h3, Cont.push, MIMIR_CONFIG, Cont.restartSvc,
          Cont.updateEndpoint]
    | some (.yaml v), _ =>
        by_cases hbeq : Yaml.beq v (buildMimirConfig inp.s3 httpListenPort) = true
        · have hv := Yaml.eq_of_beq _ _ hbeq
          simp [mimirConfigChanged, runningMimirConfig, hconn, hcf, Cont.addLayer,
            hbeq, hv, Yaml.beq_refl, h1, h2, h3, Cont.restartSvc, Cont.updateEndpoint]
        · simp [mimirConfigChanged, runningMimirConfig, hconn, hcf, Cont.addLayer,
            hbeq, h1, h2, h3, Cont.push, MIMIR_CONFIG, Cont.restartSvc, Cont.updateEndpoint]
  · have hplan : c.plan = pebbleLayer.services := by
      rcases not_or.mp hpl with ⟨_, hne⟩
      simpa using hne
    rw [pebbleLayerChanged_conv _ (by simpa using hplan)]
    match hcf : c.cfgFile, h4 with
    | none, _ =>
        simp [mimirConfigChanged, runningMimirConfig, hconn, hcf,
          beq_empty_config, h1, h2, h3, Cont.push, MIMIR_CONFIG, Cont.restartSvc,
          Cont.updateEndpoint, hplan]
    | some (.yaml v), _ =>
        by_cases hbeq : Yaml.beq v (buildMimirConfig inp.s3 httpListenPort) = true
        · have hv := Yaml.eq_of_beq _ _ hbeq
          simp [mimirConfigChanged, runningMimirConfig, hconn, hcf,
            hbeq, hv, Yaml.beq_refl, h1, h2, h3, Cont.restartSvc, Cont.updateEndpoint, hplan]
        · simp [mimirConfigChanged, runningMimirConfig, hconn, hcf,
            hbeq, h1, h2, h3, Cont.push, MIMIR_CONFIG, Cont.restartSvc,
            Cont.updateEndpoint, hplan]

theorem setAlerts_removeErr (alerts : List (String × Yaml)) (c : Cont)
    (h1 : c.removeErr = true) :
    setAlerts alerts c = (c, some "Failed to remove alerts directory; see debug logs") := by
  simp [setAlerts, h1]

theorem setAlerts_writeErr (alerts : List (String × Yaml)) (c : Cont)
    (h1 : c.removeErr = false) (h2 : c.alertWriteErr = true) :
    setAlerts alerts c =
      ({ c with ruleFiles := [], trace := c.trace ++ [.removePath RULES_DIR] },
       some "Failed to push updated alert files; see debug logs") := by
  simp [setAlerts, h1, Cont.removePathRec, h2]

theorem mimirConfigChanged_parseErr (s3 : Option S3Info) (c : Cont) (e : String)
    (hrun : runningMimirConfig c = .error e) :
    mimirConfigChanged s3 c = (c, .error e) := by
  simp [mimirConfigChanged, hrun]

theorem mimirConfigChanged_pushErr (s3 : Option S3Info) (c : Cont) (msg : String) (v : Yaml)
    (hrun : runningMimirConfig c = .ok v)
    (hdiff : Yaml.beq v (buildMimirConfig s3 httpListenPort) = false)
    (hpush : c.pushCfgErr = some msg) :
    mimirConfigChanged s3 c = (c, .error msg) := by
  simp [mimirConfigChanged, hrun, hdiff, hpush]

theorem mimirConfigChanged_write (s3 : Option S3Info) (c : Cont) (v : Yaml)
    (hrun : runningMimirConfig c = .ok v)
    (hdiff : Yaml.beq v (buildMimirConfig s3 httpListenPort) = false)
    (hpush : c.pushCfgErr = none) :
    mimirConfigChanged s3 c =
      (c.push MIMIR_CONFIG (.yaml (buildMimirConfig s3 httpListenPort)), .ok true) := by
  simp [mimirConfigChanged, hrun, hdiff, hpush]

theorem runningMimirConfig_congr (a b : Cont) (hc : a.conn = b.conn)
    (hf : a.cfgFile = b.cfgFile) : runningMimirConfig a = runningMimirConfig b := by
  unfold runningMimirConfig
  rw [hc, hf]

theorem isAlertFsOp_rulePush (id : String) : isAlertFsOp (.push (rulePath id)) = true := by
  simp [isAlertFsOp, rulePath_ne_config id]

theorem alertOps_all (alerts : List (String × Yaml)) :
    (alertOps alerts).all isAlertFsOp = true := by
  simp only [alertOps, List.all_cons, Bool.and_eq_true, List.all_eq_true]
  refine ⟨rfl, rfl, ?_⟩
  intro o ho
  rcases List.mem_map.mp ho with ⟨a, -, rfl⟩
  exact isAlertFsOp_rulePush a.1

theorem cfgPush_not_in_alertOps (alerts : List (String × Yaml)) :
    Op.push MIMIR_CONFIG ∉ alertOps alerts := by
  simp only [alertOps, List.mem_cons, List.mem_map]
  rintro (h | h | ⟨a, -, h⟩)
  · exact Op.noConfusion h
  · exact Op.noConfusion h
  · exact rulePath_ne_config a.1 (Op.push.inj h)

theorem restart_not_in_alertOps (alerts : List (String × Yaml)) :
    Op.restart "mimir" ∉ alertOps alerts := by
  simp [alertOps]

theorem endpoint_not_in_alertOps (alerts : List (String × Yaml)) :
    Op.updateEndpoint ∉ alertOps alerts := by
  simp [alertOps]

theorem dropLit_none_of_isSome_false (lit l : List Char)
    (h : (dropLit lit l).isSome = false) : dropLit lit l = none := by
  rcases hd : dropLit lit l with _ | x
  · rfl
  · rw [hd] at h
    simp at h

theorem searchFrom_none (l : List Char) (h : hasMarker l = false) :
    searchFrom l = none := by
  induction l with
  | nil => rfl
  | cons c rest ih =>
      rw [hasMarker] at h
      rcases Bool.or_eq_false_iff.mp h with ⟨h1, h2⟩
      rw [searchFrom]
      rcases Bool.and_eq_false_iff.mp h1 with hc | hd
      · simp only [hc, Bool.false_eq_true, if_false, Option.orElse]
        exact ih h2
      · have hdn := dropLit_none_of_isSome_false _ _ hd
        by_cases hc2 : (c == 'V' || c == 'v') = true
        · simp only [hc2, if_true, hdn, Option.orElse]
          exact ih h2
        · simp only [hc2, Bool.false_eq_true, if_false, Option.orElse]
          · exact ih h2

theorem takeWhile_all_nonspace (w rest : List Char)
    (hall : w.all (fun ch => !isSpaceChar ch) = true) :
    (w ++ ' ' :: rest).takeWhile (fun ch => !isSpaceChar ch) = w := by
  induction w with
  | nil => simp [List.takeWhile_cons, isSpaceChar]
  | cons wh wt ih =>
      rw [List.all_cons] at hall
      rcases (Bool.and_eq_true _ _).mp hall with ⟨hh, ht⟩
      simp [List.takeWhile_cons, hh, ih ht]

theorem capture_space_token (w rest : List Char) (hw : w ≠ [])
    (hall : w.all (fun ch => !isSpaceChar ch) = true) :
    capture (' ' :: (w ++ ' ' :: rest)) = some w := by
  cases w with
  | nil => exact absurd rfl hw
  | cons wh wt =>
      have hh : (!isSpaceChar wh) = true := by
        rw [List.all_cons] at hall
        exact ((Bool.and_eq_true _ _).mp hall).1
      have ht : wt.all (fun ch => !isSpaceChar ch) = true := by
        rw [List.all_cons] at hall
        exact ((Bool.and_eq_true _ _).mp hall).2
      have hsp : isSpaceChar wh = false := by simpa using hh
      rw [capture]
      simp only [List.dropWhile_cons, show isSpaceChar ' ' = true from rfl, if_true,
        List.cons_append, hsp, Bool.false_eq_true, if_false]
      simp [List.takeWhile_cons, hsp, takeWhile_all_nonspace wt rest ht]

/-! Claim theorems. -/

/-- C1 counterexample: at a concrete fresh state with one alert source, the
second reconciliation pass (identical inputs, nothing changed) still
performs three filesystem mutations — `remove_path` on the rule tree,
`make_dir` on the tenant directory and a `push` of the rule file —
because `_set_alerts` has no fingerprint short-circuit; the claimed
"zero additional filesystem writes" is false. -/
theorem reconcile_idempotence_counterexample :
    ((configureMimir exInputs (configureMimir exInputs freshCont)).trace.drop
        (configureMimir exInputs freshCont).trace.length) =
      [.removePath RULES_DIR, .makeDir tenantDir, .push (rulePath "relid1_model"),
       .updateEndpoint]
    ∧ (configureMimir exInputs (configureMimir exInputs freshCont)).status = .active :=
  ⟨by decide, by decide⟩

/-- C1 amended: with no intervening change to any input, the second pass
issues zero restarts, zero layer additions and zero configuration-file
pushes — its only trace additions are the unconditional alert rewrite
(rule-tree removal, tenant directory creation, one push per alert source)
and the endpoint republication — and it ends Active. There is no
fingerprint short-circuit in `_set_alerts`: the rule tree is removed and
rewritten on every pass. -/
theorem reconcile_second_pass_amended (inp : Inputs) (c : Cont)
    (hconn : c.conn = true) (h1 : c.removeErr = false) (h2 : c.alertWriteErr = false)
    (h3 : c.pushCfgErr = none) (h4 : parsesOk c.cfgFile = true) :
    (configureMimir inp (configureMimir inp c)).trace =
        (configureMimir inp c).trace ++ alertOps inp.alerts ++ [.updateEndpoint]
    ∧ (configureMimir inp (configureMimir inp c)).status = .active
    ∧ ∀ o ∈ alertOps inp.alerts,
        o ≠ .restart "mimir" ∧ o ≠ .addLayer "mimir" ∧ o ≠ .push MIMIR_CONFIG := by
  obtain ⟨e1, e2, e3, _, e5, e6, _⟩ := configureMimir_establishes inp c hconn h1 h2 h3 h4
  have h := configureMimir_converged inp (configureMimir inp c) e1 e2 e3 e5 e6
  refine ⟨?_, ?_, ?_⟩
  · rw [h]
  · rw [h]
  · intro o ho
    simp only [alertOps, List.mem_cons, List.mem_map] at ho
    rcases ho with rfl | rfl | ⟨a, _, rfl⟩
    · exact ⟨by simp, by simp, by simp⟩
    · exact ⟨by simp, by simp, by simp⟩
    · exact ⟨by simp, by simp, by simp [rulePath_ne_config a.1]⟩

/-- Witness for the amended C1 at the concrete fresh state. -/
theorem reconcile_second_pass_amended_witness :
    (configureMimir exInputs (configureMimir exInputs freshCont)).trace =
      (configureMimir exInputs freshCont).trace ++ alertOps exInputs.alerts
        ++ [.updateEndpoint] :=
  (reconcile_second_pass_amended exInputs freshCont rfl rfl rfl rfl rfl).1

/-- C2 counterexample: on a fresh pass the trace shows the service-layer
step (`add_layer`, index 3) executing BEFORE the configuration push
(index 4) — the source evaluates
`any([self._pebble_layer_changed(), self._mimir_config_changed()])` whose
list literal runs the layer step first — so the claimed order
(configuration write before layer apply) is false. -/
theorem step_ordering_counterexample :
    (configureMimir exInputs freshCont).trace =
      [.removePath RULES_DIR, .makeDir tenantDir, .push (rulePath "relid1_model"),
       .addLayer "mimir", .push MIMIR_CONFIG, .restart "mimir", .updateEndpoint]
    ∧ (configureMimir exInputs freshCont).trace.indexOf (Op.addLayer "mimir") <
      (configureMimir exInputs freshCont).trace.indexOf (Op.push MIMIR_CONFIG) :=
  ⟨by decide, by decide⟩

/-- C2 amended: every pass that gets past the reachability check appends to
the trace a sequence that decomposes as alert-synchronizer filesystem
operations, then at most one layer addition, then at most one
configuration push, then at most one restart, then at most one endpoint
republication — i.e. the fixed order is alerts, then layer, then config,
then restart (the restart, when issued, follows both the config write and
the rule-tree rewrite of the same pass). -/
theorem step_ordering_amended (inp : Inputs) (c : Cont) (hconn : c.conn = true) :
    ∃ A L C R E : List Op,
      (configureMimir inp c).trace = c.trace ++ A ++ L ++ C ++ R ++ E
      ∧ A.all isAlertFsOp = true ∧ L.all isAddLayerOp = true ∧ C.all isCfgPushOp = true
      ∧ R.all isRestartOp = true ∧ E.all isEndpointOp = true := by
  by_cases hrem : c.removeErr = true
  · refine ⟨[], [], [], [], [], ?_, rfl, rfl, rfl, rfl, rfl⟩
    simp [configureMimir, hconn, setAlerts_removeErr inp.alerts c hrem]
  · replace hrem : c.removeErr = false := by simpa using hrem
    by_cases hwr : c.alertWriteErr = true
    · refine ⟨[.removePath RULES_DIR], [], [], [], [], ?_, rfl, rfl, rfl, rfl, rfl⟩
      simp [configureMimir, hconn, setAlerts_writeErr inp.alerts c hrem hwr]
    · replace hwr : c.alertWriteErr = false := by simpa using hwr
      have hsa := setAlerts_clean inp.alerts c hrem hwr
      have hall := alertOps_all inp.alerts
      by_cases hpl : c.plan = [] ∨ c.plan ≠ pebbleLayer.services
      · rcases hcf : c.cfgFile with _ | fc
        · rcases hpe : c.pushCfgErr with _ | msg
          · refine ⟨alertOps inp.alerts, [.addLayer "mimir"], [.push MIMIR_CONFIG],
              [.restart "mimir"], [.updateEndpoint], ?_, hall, rfl, rfl, rfl, rfl⟩
            simp only [configureMimir, hconn, Bool.true_eq_false, if_false, hsa]
            rw [pebbleLayerChanged_pos _ (by exact hpl)]
            simp [mimirConfigChanged, runningMimirConfig, hconn, hcf, beq_empty_config,
              hpe, Cont.addLayer, Cont.push, MIMIR_CONFIG, Cont.restartSvc,
              Cont.updateEndpoint, List.append_assoc]
          · refine ⟨alertOps inp.alerts, [.addLayer "mimir"], [], [], [],
              ?_, hall, rfl, rfl, rfl, rfl⟩
            simp only [configureMimir, hconn, Bool.true_eq_false, if_false, hsa]
            rw [pebbleLayerChanged_pos _ (by exact hpl)]
            simp [mimirConfigChanged, runningMimirConfig, hconn, hcf, beq_empty_config,
              hpe, Cont.addLayer, List.append_assoc]
        · rcases fc with v | _
          · by_cases hbeq : Yaml.beq v (buildMimirConfig inp.s3 httpListenPort) = true
            · refine ⟨alertOps inp.alerts, [.addLayer "mimir"], [], [.restart "mimir"],
                [.updateEndpoint], ?_, hall, rfl, rfl, rfl, rfl⟩
              simp only [configureMimir, hconn, Bool.true_eq_false, if_false, hsa]
              rw [pebbleLayerChanged_pos _ (by exact hpl)]
              simp [mimirConfigChanged, runningMimirConfig, hconn, hcf, hbeq,
                Cont.addLayer, Cont.restartSvc, Cont.updateEndpoint, List.append_assoc]
            · rcases hpe : c.pushCfgErr with _ | msg
              · refine ⟨alertOps inp.alerts, [.addLayer "mimir"], [.push MIMIR_CONFIG],
                  [.restart "mimir"], [.updateEndpoint], ?_, hall, rfl, rfl, rfl, rfl⟩
                simp only [configureMimir, hconn, Bool.true_eq_false, if_false, hsa]
                rw [pebbleLayerChanged_pos _ (by exact hpl)]
                simp [mimirConfigChanged, runningMimirConfig, hconn, hcf, hbeq, hpe,
                  Cont.addLayer, Cont.push, MIMIR_CONFIG, Cont.restartSvc,
                  Cont.updateEndpoint, List.append_assoc]
              · refine ⟨alertOps inp.alerts, [.addLayer "mimir"], [], [], [],
                  ?_, hall, rfl, rfl, rfl, rfl⟩
                simp only [configureMimir, hconn, Bool.true_eq_false, if_false, hsa]
                rw [pebbleLayerChanged_pos _ (by exact hpl)]
                simp [mimirConfigChanged, runningMimirConfig, hconn, hcf, hbeq, hpe,
                  Cont.addLayer, List.append_assoc]
          · refine ⟨alertOps inp.alerts, [.addLayer "mimir"], [], [], [],
              ?_, hall, rfl, rfl, rfl, rfl⟩
            simp only [configureMimir, hconn, Bool.true_eq_false, if_false, hsa]
            rw [pebbleLayerChanged_pos _ (by exact hpl)]
            simp [mimirConfigChanged, runningMimirConfig, hconn, hcf,
              Cont.addLayer, List.append_assoc]
      · have hplan : c.plan = pebbleLayer.services := by
          rcases not_or.mp hpl with ⟨_, hne⟩
          simpa using hne
        rcases hcf : c.cfgFile with _ | fc
        · rcases hpe : c.pushCfgErr with _ | msg
          · refine ⟨alertOps inp.alerts, [], [.push MIMIR_CONFIG],
              [.restart "mimir"], [.updateEndpoint], ?_, hall, rfl, rfl, rfl, rfl⟩
            simp only [configureMimir, hconn, Bool.true_eq_false, if_false, hsa]
            rw [pebbleLayerChanged_conv _ (by exact hplan)]
            simp [mimirConfigChanged, runningMimirConfig, hconn, hcf, beq_empty_config,
              hpe, Cont.push, MIMIR_CONFIG, Cont.restartSvc, Cont.updateEndpoint,
              List.append_assoc]
          · refine ⟨alertOps inp.alerts, [], [], [], [], ?_, hall, rfl, rfl, rfl, rfl⟩
            simp only [configureMimir, hconn, Bool.true_eq_false, if_false, hsa]
            rw [pebbleLayerChanged_conv _ (by exact hplan)]
            simp [mimirConfigChanged, runningMimirConfig, hconn, hcf, beq_empty_config,
              hpe, List.append_assoc]
        · rcases fc with v | _
          · by_cases hbeq : Yaml.beq v (buildMimirConfig inp.s3 httpListenPort) = true
            · refine ⟨alertOps inp.alerts, [], [], [], [.updateEndpoint],
                ?_, hall, rfl, rfl, rfl, rfl⟩
              simp only [configureMimir, hconn, Bool.true_eq_false, if_false, hsa]
              rw [pebbleLayerChanged_conv _ (by exact hplan)]
              simp [mimirConfigChanged, runningMimirConfig, hconn, hcf, hbeq,
                Cont.updateEndpoint, List.append_assoc]
            · rcases hpe : c.pushCfgErr with _ | msg
              · refine ⟨alertOps inp.alerts, [], [.push MIMIR_CONFIG],
                  [.restart "mimir"], [.updateEndpoint], ?_, hall, rfl, rfl, rfl, rfl⟩
                simp only [configureMimir, hconn, Bool.true_eq_false, if_false, hsa]
                rw [pebbleLayerChanged_conv _ (by exact hplan)]
                simp [mimirConfigChanged, runningMimirConfig, hconn, hcf, hbeq, hpe,
                  Cont.push, MIMIR_CONFIG, Cont.restartSvc, Cont.updateEndpoint,
                  List.append_assoc]
              · refine ⟨alertOps inp.alerts, [], [], [], [], ?_, hall, rfl, rfl, rfl, rfl⟩
                simp only [configureMimir, hconn, Bool.true_eq_false, if_false, hsa]
                rw [pebbleLayerChanged_conv _ (by exact hplan)]
                simp [mimirConfigChanged, runningMimirConfig, hconn, hcf, hbeq, hpe,
                  List.append_assoc]
          · refine ⟨alertOps inp.alerts, [], [], [], [], ?_, hall, rfl, rfl, rfl, rfl⟩
            simp only [configureMimir, hconn, Bool.true_eq_false, if_false, hsa]
            rw [pebbleLayerChanged_conv _ (by exact hplan)]
            simp [mimirConfigChanged, runningMimirConfig, hconn, hcf, List.append_assoc]

/-- Witness for the amended C2 at the concrete fresh state. -/
theorem step_ordering_amended_witness :
    ∃ A L C R E : List Op,
      (configureMimir exInputs freshCont).trace = freshCont.trace ++ A ++ L ++ C ++ R ++ E
      ∧ A.all isAlertFsOp = true ∧ L.all isAddLayerOp = true ∧ C.all isCfgPushOp = true
      ∧ R.all isRestartOp = true ∧ E.all isEndpointOp = true :=
  step_ordering_amended exInputs freshCont rfl

/-- C3 counterexample: with the container reachable and the configuration
file malformed, the pass ends Blocked (the `yaml.safe_load` failure escapes
`_running_mimir_config`, whose `except` clause only catches `ProtocolError`
and `PathError`, and is converted to `BlockedStatusError` in
`_mimir_config_changed`) — not, as claimed, a first-run convergence. -/
theorem malformed_config_counterexample :
    (configureMimir exInputs { freshCont with cfgFile := some .malformed }).status
      = .blocked "yaml parse error" := by decide

/-- C3 amended: an absent configuration file (pull failure) makes the reader
return the empty mapping and the pass proceeds as a first-run convergence —
full configuration write, ending Active; but a configuration file that fails
to parse raises past the reader and the pass ends Blocked with the parse
error text, with no configuration push and no restart. -/
theorem malformed_config_amended :
    (∀ (inp : Inputs) (c : Cont), c.conn = true → c.cfgFile = none →
        c.removeErr = false → c.alertWriteErr = false → c.pushCfgErr = none →
        runningMimirConfig c = .ok (.map [])
        ∧ (configureMimir inp c).status = .active
        ∧ Op.push MIMIR_CONFIG ∈ (configureMimir inp c).trace.drop c.trace.length)
    ∧ (∀ (inp : Inputs) (c : Cont), c.conn = true → c.cfgFile = some .malformed →
        c.removeErr = false → c.alertWriteErr = false →
        (configureMimir inp c).status = .blocked "yaml parse error"
        ∧ Op.push MIMIR_CONFIG ∉ (configureMimir inp c).trace.drop c.trace.length
        ∧ Op.restart "mimir" ∉ (configureMimir inp c).trace.drop c.trace.length) := by
  constructor
  · intro inp c hconn hcf h1 h2 h3
    have hsa := setAlerts_clean inp.alerts c h1 h2
    refine ⟨by simp [runningMimirConfig, hconn, hcf], ?_⟩
    by_cases hpl : c.plan = [] ∨ c.plan ≠ pebbleLayer.services
    · have key : configureMimir inp c =
          { c with plan := pebbleLayer.services,
                   cfgFile := some (.yaml (buildMimirConfig inp.s3 httpListenPort)),
                   ruleFiles := inp.alerts.map (fun a => rulePath a.1),
                   status := .active,
                   trace := c.trace ++ (alertOps inp.alerts ++
                     [.addLayer "mimir", .push MIMIR_CONFIG, .restart "mimir",
                      .updateEndpoint]) } := by
        simp only [configureMimir, hconn, Bool.true_eq_false, if_false, hsa]
        rw [pebbleLayerChanged_pos _ (by exact hpl)]
        simp [mimirConfigChanged, runningMimirConfig, hconn, hcf, beq_empty_config,
          h3, Cont.addLayer, Cont.push, MIMIR_CONFIG, Cont.restartSvc,
          Cont.updateEndpoint, List.append_assoc]
      rw [key]
      refine ⟨rfl, ?_⟩
      simp [List.drop_left]
    · have hplan : c.plan = pebbleLayer.services := by
        rcases not_or.mp hpl with ⟨_, hne⟩
        simpa using hne
      have key : configureMimir inp c =
          { c with cfgFile := some (.yaml (buildMimirConfig inp.s3 httpListenPort)),
                   ruleFiles := inp.alerts.map (fun a => rulePath a.1),
                   status := .active,
                   trace := c.trace ++ (alertOps inp.alerts ++
                     [.push MIMIR_CONFIG, .restart "mimir", .updateEndpoint]) } := by
        simp only [configureMimir, hconn, Bool.true_eq_false, if_false, hsa]
        rw [pebbleLayerChanged_conv _ (by exact hplan)]
        simp [mimirConfigChanged, runningMimirConfig, hconn, hcf, beq_empty_config,
          h3, Cont.push, MIMIR_CONFIG, Cont.restartSvc, Cont.updateEndpoint,
          List.append_assoc]
      rw [key]
      refine ⟨rfl, ?_⟩
      simp [List.drop_left]
  · intro inp c hconn hcf h1 h2
    have hsa := setAlerts_clean inp.alerts c h1 h2
    by_cases hpl : c.plan = [] ∨ c.plan ≠ pebbleLayer.services
    · have key : configureMimir inp c =
          { c with plan := pebbleLayer.services,
                   ruleFiles := inp.alerts.map (fun a => rulePath a.1),
                   status := .blocked "yaml parse error",
                   trace := c.trace ++ (alertOps inp.alerts ++ [.addLayer "mimir"]) } := by
        simp only [configureMimir, hconn, Bool.true_eq_false, if_false, hsa]
        rw [pebbleLayerChanged_pos _ (by exact hpl)]
        simp [mimirConfigChanged, runningMimirConfig, hconn, hcf, Cont.addLayer,
          List.append_assoc]
      rw [key]
      refine ⟨rfl, ?_, ?_⟩ <;>
        simp [List.drop_left, cfgPush_not_in_alertOps, restart_not_in_alertOps]
    · have hplan : c.plan = pebbleLayer.services := by
        rcases not_or.mp hpl with ⟨_, hne⟩
        simpa using hne
      have key : configureMimir inp c =
          { c with ruleFiles := inp.alerts.map (fun a => rulePath a.1),
                   status := .blocked "yaml parse error",
                   trace := c.trace ++ (alertOps inp.alerts ++ []) } := by
        simp only [configureMimir, hconn, Bool.true_eq_false, if_false, hsa]
        rw [pebbleLayerChanged_conv _ (by exact hplan)]
        simp [mimirConfigChanged, runningMimirConfig, hconn, hcf, List.append_assoc]
      rw [key]
      refine ⟨rfl, ?_, ?_⟩ <;>
        simp [List.drop_left, cfgPush_not_in_alertOps, restart_not_in_alertOps]

/-- Witness for the amended C3 at the concrete fresh state (absent file). -/
theorem malformed_config_amended_witness :
    runningMimirConfig freshCont = .ok (.map [])
    ∧ (configureMimir exInputs freshCont).status = .active
    ∧ Op.push MIMIR_CONFIG ∈
        (configureMimir exInputs freshCont).trace.drop freshCont.trace.length :=
  malformed_config_amended.1 exInputs freshCont rfl rfl rfl rfl rfl

/-- C4: when the configuration push raises (the pass attempts it because the
observed configuration differs from the desired one), the pass ends Blocked
carrying the underlying error text, and neither a restart nor the endpoint
republication happens in that pass. -/
theorem fatal_push_no_restart (inp : Inputs) (c : Cont) (msg : String)
    (hconn : c.conn = true) (h1 : c.removeErr = false) (h2 : c.alertWriteErr = false)
    (hpush : c.pushCfgErr = some msg) (hp : parsesOk c.cfgFile = true)
    (hneq : ∀ v : Yaml, c.cfgFile = some (.yaml v) →
      Yaml.beq v (buildMimirConfig inp.s3 httpListenPort) = false) :
    (configureMimir inp c).status = .blocked msg
    ∧ Op.restart "mimir" ∉ (configureMimir inp c).trace.drop c.trace.length
    ∧ Op.updateEndpoint ∉ (configureMimir inp c).trace.drop c.trace.length := by
  have hsa := setAlerts_clean inp.alerts c h1 h2
  have hstep : ∀ L : List Op, (L = [] ∨ L = [Op.addLayer "mimir"]) →
      ∀ (pl : List (String × Svc)) (d : Cont),
      d = { c with
            plan := pl,
            ruleFiles := inp.alerts.map (fun a => rulePath a.1),
            status := .blocked msg,
            trace := c.trace ++ (alertOps inp.alerts ++ L) } →
      d.status = .blocked msg
      ∧ Op.restart "mimir" ∉ d.trace.drop c.trace.length
      ∧ Op.updateEndpoint ∉ d.trace.drop c.trace.length := by
    rintro L (rfl | rfl) pl d rfl <;>
      refine ⟨rfl, ?_, ?_⟩ <;>
      simp [List.drop_left, restart_not_in_alertOps, endpoint_not_in_alertOps]
  by_cases hpl : c.plan = [] ∨ c.plan ≠ pebbleLayer.services
  · rcases hcf : c.cfgFile with _ | fc
    · refine hstep [Op.addLayer "mimir"] (Or.inr rfl) pebbleLayer.services _ ?_
      simp only [configureMimir, hconn, Bool.true_eq_false, if_false, hsa]
      rw [pebbleLayerChanged_pos _ (by exact hpl)]
      simp [mimirConfigChanged, runningMimirConfig, hconn, hcf, beq_empty_config,
        hpush, Cont.addLayer, List.append_assoc]
    · rcases fc with v | _
      · refine hstep [Op.addLayer "mimir"] (Or.inr rfl) pebbleLayer.services _ ?_
        simp only [configureMimir, hconn, Bool.true_eq_false, if_false, hsa]
        rw [pebbleLayerChanged_pos _ (by exact hpl)]
        simp [mimirConfigChanged, runningMimirConfig, hconn, hcf, hneq v hcf,
          hpush, Cont.addLayer, List.append_assoc]
      · rw [hcf] at hp
        simp [parsesOk] at hp
  · have hplan : c.plan = pebbleLayer.services := by
      rcases not_or.mp hpl with ⟨_, hne⟩
      simpa using hne
    rcases hcf : c.cfgFile with _ | fc
    · refine hstep [] (Or.inl rfl) c.plan _ ?_
      simp only [configureMimir, hconn, Bool.true_eq_false, if_false, hsa]
      rw [pebbleLayerChanged_conv _ (by exact hplan)]
      simp [mimirConfigChanged, runningMimirConfig, hconn, hcf, beq_empty_config,
        hpush, List.append_assoc]
    · rcases fc with v | _
      · refine hstep [] (Or.inl rfl) c.plan _ ?_
        simp only [configureMimir, hconn, Bool.true_eq_false, if_false, hsa]
        rw [pebbleLayerChanged_conv _ (by exact hplan)]
        simp [mimirConfigChanged, runningMimirConfig, hconn, hcf, hneq v hcf,
          hpush, List.append_assoc]
      · rw [hcf] at hp
        simp [parsesOk] at hp

/-- Witness for C4 at a concrete state whose config push raises `disk full`. -/
theorem fatal_push_no_restart_witness :
    (configureMimir exInputs { freshCont with pushCfgErr := some "disk full" }).status
        = .blocked "disk full"
    ∧ Op.restart "mimir" ∉
        (configureMimir exInputs { freshCont with pushCfgErr := some "disk full" }).trace.drop
          ({ freshCont with pushCfgErr := some "disk full" } : Cont).trace.length
    ∧ Op.updateEndpoint ∉
        (configureMimir exInputs { freshCont with pushCfgErr := some "disk full" }).trace.drop
          ({ freshCont with pushCfgErr := some "disk full" } : Cont).trace.length :=
  fatal_push_no_restart exInputs { freshCont with pushCfgErr := some "disk full" }
    "disk full" rfl rfl rfl rfl rfl (fun _ h => Option.noConfusion h)

/-- C5: with an object-storage binding whose endpoint is `http://x/`, the
built configuration selects the `s3` backend and stores endpoint `x/`
(scheme stripped); stripping is a no-op on any endpoint that does not start
with `http://`; with the binding absent the backend is `filesystem` rooted
at the fixed base directory `/mimir/data`. -/
theorem backend_selection_and_scheme_stripping :
    ((buildMimirConfig
        (some { endpoint := "http://x/", accessKey := "ak", secretKey := "sk", bucket := "bkt" })
        9009).getPath ["common", "storage", "backend"] = some (.str "s3"))
    ∧ ((buildMimirConfig
        (some { endpoint := "http://x/", accessKey := "ak", secretKey := "sk", bucket := "bkt" })
        9009).getPath ["common", "storage", "s3", "endpoint"] = some (.str "x/"))
    ∧ (∀ s : String, "http://".data.isPrefixOf s.data = false → stripHttpScheme s = s)
    ∧ ((buildMimirConfig none 9009).getPath ["common", "storage", "backend"]
        = some (.str "filesystem"))
    ∧ ((buildMimirConfig none 9009).getPath ["common", "storage", "filesystem", "dir"]
        = some (.str "/mimir/data")) := by
  refine ⟨rfl, rfl, ?_, rfl, rfl⟩
  intro s h
  unfold stripHttpScheme
  split
  · rename_i heq
    rw [heq] at h
    simp [List.isPrefixOf] at h
  · rfl

/-- Witness for C5: stripping leaves an endpoint without the scheme
unchanged, at the concrete input `s3.local:9000/`. -/
theorem backend_selection_and_scheme_stripping_witness :
    stripHttpScheme "s3.local:9000/" = "s3.local:9000/" :=
  backend_selection_and_scheme_stripping.2.2.1 "s3.local:9000/" (by decide)

/-- C6: the desired-configuration builder is a pure function of the binding
and the port — two builds with the same inputs serialize to byte-identical
output (the serializer canonicalizes map key order, modelling
`yaml.safe_dump` with its default key sorting) — and the serialized form is
a concrete, reproducible byte string. -/
theorem build_deterministic :
    (∀ (s3 : Option S3Info) (port : Nat),
       serializeConfig (buildMimirConfig s3 port) = serializeConfig (buildMimirConfig s3 port))
    ∧ serializeConfig (buildMimirConfig none 9009) =
      "(blocks_storage: (bucket_store: (sync_dir: \"/mimir/tsdb-sync\"; ); storage_prefix: \"tsdb\"; tsdb: (dir: \"/mimir/tsdb\"; ); ); common: (storage: (backend: \"filesystem\"; filesystem: (dir: \"/mimir/data\"; ); ); ); compactor: (data_dir: \"/mimir/compactor\"; sharding_ring: (kvstore: (store: \"memberlist\"; ); ); ); distributor: (ring: (instance_addr: \"127.0.0.1\"; kvstore: (store: \"memberlist\"; ); ); ); ingester: (ring: (instance_addr: \"127.0.0.1\"; kvstore: (store: \"memberlist\"; ); replication_factor: 1; ); ); multitenancy_enabled: false; ruler_storage: (backend: \"local\"; local: (directory: \"/mimir/rules\"; ); ); server: (http_listen_port: 9009; log_level: \"error\"; ); store_gateway: (sharding_ring: (replication_factor: 1; ); ); )" :=
  ⟨fun _ _ => rfl, by decide⟩

/-- C7 counterexample: the claim that the ruler storage directory is never
equal to the rules directory fails on the code — at the concrete input
(no binding, port 9009) the generated `ruler_storage.local.directory` IS
`RULES_DIR`, the very directory whose subtree `_set_alerts` rewrites
(`tenantDir = RULES_DIR ++ "/anonymous"`). -/
theorem rules_dir_overlap_counterexample :
    (buildMimirConfig none 9009).getPath ["ruler_storage", "local", "directory"]
        = some (.str RULES_DIR)
    ∧ RULES_DIR = "/mimir/rules"
    ∧ tenantDir = RULES_DIR ++ "/anonymous" := by
  refine ⟨rfl, rfl, rfl⟩

/-- C7 amended: for every generated configuration the ruler storage local
directory equals `RULES_DIR`, which is exactly the directory the on-disk
rule tree is written under (tenant subdirectory `anonymous`); the
non-overlap constraint quoted in the source comment concerns the ruler
data directory, which this configuration does not set. -/
theorem rules_dir_amended :
    ∀ (s3 : Option S3Info) (port : Nat) (id : String),
      (buildMimirConfig s3 port).getPath ["ruler_storage", "local", "directory"]
          = some (.str RULES_DIR)
      ∧ tenantDir = RULES_DIR ++ "/anonymous"
      ∧ rulePath id = ("/mimir/rules/anonymous/juju_" ++ id) ++ ".rules" := by
  intro s3 port id
  refine ⟨?_, rfl, rfl⟩
  cases s3 <;> rfl

/-- C8: when the container is unreachable, the pass sets Waiting and does
nothing else — the resulting state is the input state with only the status
replaced: no trace operation is appended, so neither the alert synchronizer
nor the builder, layer comparison, restart, or endpoint republication runs. -/
theorem notReady_shortCircuit (inp : Inputs) (c : Cont) (h : c.conn = false) :
    configureMimir inp c = { c with status := .waiting "Waiting for Pebble ready" } := by
  simp [configureMimir, h]

/-- Witness for C8 at a concrete unreachable container. -/
theorem notReady_shortCircuit_witness :
    configureMimir exInputs { freshCont with conn := false } =
      { freshCont with conn := false, status := .waiting "Waiting for Pebble ready" } :=
  notReady_shortCircuit exInputs { freshCont with conn := false } rfl

/-- C10: the desired Pebble layer is the fixed constant shown (single
service `mimir`, override `replace`, command
`/bin/mimir --config.file=/etc/mimir/mimir-config.yaml`, startup
`enabled`), and the layer-changed check returns true exactly when the
observed plan lacks a services section or its services differ from this
constant. -/
theorem pebble_layer_constant :
    pebbleLayer =
      { summary := "mimir layer"
        description := "pebble config layer for mimir"
        services :=
          [("mimir",
            { override := "replace"
              summary := "mimir daemon"
              command := "/bin/mimir --config.file=/etc/mimir/mimir-config.yaml"
              startup := "enabled" })] }
    ∧ ∀ c : Cont, ((pebbleLayerChanged c).1 = true ↔
        (c.plan = [] ∨ c.plan ≠ pebbleLayer.services)) := by
  refine ⟨rfl, ?_⟩
  intro c
  by_cases h : c.plan = [] ∨ c.plan ≠ pebbleLayer.services
  · simp [pebbleLayerChanged, h]
  · simp [pebbleLayerChanged, h]

/-- C9 counterexample: the marker in the code is `[Vv]ersion` — only the
first letter is case-insensitive — so on the output `VERSION 2.4.0`, which
does contain a case-insensitive occurrence of the marker word followed by
the token `2.4.0`, the code derives no version while the claim predicts
`2.4.0` (exhibited by the fully case-insensitive parse the claim
describes). -/
theorem version_marker_counterexample :
    mimirVersionSearch "VERSION 2.4.0" = none
    ∧ specVersionSearch "VERSION 2.4.0" = some "2.4.0" :=
  ⟨by decide, by decide⟩

/-- C9 amended: the reported version is the capture of the regex
`[Vv]ersion:?\s*(\S+)` — the marker word with only its initial letter
case-insensitive, an optional colon, optional whitespace, then the maximal
run of non-whitespace characters; when no `[Vv]ersion` marker occurs in the
output, no version is derived. In particular, on the documented output
shape `Mimir, version <w> (...)` the parse returns `<w>`. -/
theorem version_parse_amended :
    (∀ l : List Char, hasMarker l = false → searchFrom l = none)
    ∧ (∀ w rest : List Char, w ≠ [] → w.all (fun ch => !isSpaceChar ch) = true →
        searchFrom ("Mimir, version ".data ++ (w ++ ' ' :: rest)) = some w)
    ∧ mimirVersionSearch "Mimir, version 2.4.0 (branch: HEAD, revision: 32137ee)"
        = some "2.4.0"
    ∧ mimirVersion false "Mimir, version 2.4.0" = none := by
  refine ⟨searchFrom_none, ?_, by decide, rfl⟩
  intro w rest hw hall
  have hcap := capture_space_token w rest hw hall
  have hdata : "Mimir, version ".data =
      ['M', 'i', 'm', 'i', 'r', ',', ' ', 'v', 'e', 'r', 's', 'i', 'o', 'n', ' '] := rfl
  rw [hdata]
  simp only [List.cons_append]
  simp +decide [searchFrom, dropLit, afterMarker, Option.orElse, hcap]

/-- Witness for the amended C9: a marker-free output parses to nothing, and
a documented-shape output parses to its version token. -/
theorem version_parse_amended_witness :
    searchFrom "Mimir serve".data = none
    ∧ searchFrom ("Mimir, version ".data ++ (['2', '.', '0'] ++ ' ' :: [])) =
        some ['2', '.', '0'] :=
  ⟨version_parse_amended.1 "Mimir serve".data (by decide),
   version_parse_amended.2.1 ['2', '.', '0'] [] (by decide) (by decide)⟩

end MimirCharm
